import Mathlib

/-!
# AuraPlayerController

A shallow embedding of `Source/Aura/Private/Player/AuraPlayerController.cpp`:
the per-frame cursor trace with its highlight transitions, the enhanced-input
`Move` handler and `BeginPlay`.

Pointers are `Option` values (`none` is `nullptr`).  Calls made into the engine
or into other classes are recorded, in order, in the list a function returns
next to the controller it leaves behind.
-/

namespace Aura

/-! ## Data model -/

/-- An actor of the level.  `implementsEnemyInterface` records whether the
actor's class implements `IEnemyInterface`, which is what
`Cast<IEnemyInterface>` tests. -/
structure AActor where
  id : Nat
  implementsEnemyInterface : Bool
  deriving DecidableEq, Repr

/-- The part of `FHitResult` that `CursorTrace` reads: `bBlockingHit` and the
actor returned by `GetActor()` (null when the hit has no actor). -/
structure FHitResult where
  bBlockingHit : Bool
  Actor : Option AActor
  deriving DecidableEq, Repr

/-- Mapping context asset referenced by `AuraContext`. -/
structure UInputMappingContext where
  id : Nat
  deriving DecidableEq, Repr

/-- The enhanced-input subsystem of a local player. -/
structure UEnhancedInputLocalPlayerSubsystem where
  id : Nat
  deriving DecidableEq, Repr

/-- A pawn the controller may possess. -/
structure APawn where
  id : Nat
  deriving DecidableEq, Repr

/-- Cursor shapes of `EMouseCursor` (the ones named here and some others). -/
inductive EMouseCursor where
  | None
  | Default
  | TextEditBeam
  | Crosshairs
  | Hand
  deriving DecidableEq, Repr

/-- Viewport mouse-lock modes of `EMouseLockMode`. -/
inductive EMouseLockMode where
  | DoNotLock
  | LockOnCapture
  | LockAlways
  | LockInFullscreen
  deriving DecidableEq, Repr

/-- The members of `AAuraPlayerController` that the source file reads or
writes. -/
structure AAuraPlayerController where
  bReplicates : Bool
  LastActor : Option AActor
  ThisActor : Option AActor
  AuraContext : Option UInputMappingContext
  bShowMouseCursor : Bool
  DefaultMouseCursor : EMouseCursor
  deriving DecidableEq, Repr

/-! ## Cursor trace -/

/-- Calls made through `IEnemyInterface`. -/
inductive EnemyCall where
  | HighlightActor (Target : AActor)
  | UnHighlightActor (Target : AActor)
  deriving DecidableEq, Repr

/-- `Cast<IEnemyInterface>(Actor)`: the actor itself when its class implements
the interface, null otherwise and for a null actor. -/
def Cast (Actor : Option AActor) : Option AActor :=
  match Actor with
  | none => none
  | some a => if a.implementsEnemyInterface then some a else none

/-- The branch structure of `CursorTrace` after the two references have been
updated (cases A to E of the source comment). -/
def highlightTransition (LastActor ThisActor : Option AActor) : List EnemyCall :=
  match LastActor with
  | none =>
    match ThisActor with
    | some t => [EnemyCall.HighlightActor t]          -- Case B
    | none => []                                      -- Case A
  | some l =>
    match ThisActor with
    | none => [EnemyCall.UnHighlightActor l]          -- Case C
    | some t =>
      if l ≠ t then
        [EnemyCall.UnHighlightActor l, EnemyCall.HighlightActor t]  -- Case D
      else
        []                                            -- Case E

/-- `AAuraPlayerController::CursorTrace`, with the result of
`GetHitResultUnderCursor` as the argument `CursorHit`.  Returns the controller
afterwards and the interface calls issued, in order. -/
def CursorTrace (c : AAuraPlayerController) (CursorHit : FHitResult) :
    AAuraPlayerController × List EnemyCall :=
  if !CursorHit.bBlockingHit then (c, [])
  else
    let c1 := { c with LastActor := c.ThisActor }
    let c2 := { c1 with ThisActor := Cast CursorHit.Actor }
    (c2, highlightTransition c2.LastActor c2.ThisActor)

/-- Modelled from the spec: `HighlightActor` and `UnHighlightActor` are
implemented by the enemy class, which is not part of the source file; the
highlight state is the set of highlighted actors, `HighlightActor` adding its
target and `UnHighlightActor` removing it. -/
def applyEnemyCall (Highlighted : Finset AActor) : EnemyCall → Finset AActor
  | EnemyCall.HighlightActor t => insert t Highlighted
  | EnemyCall.UnHighlightActor t => Highlighted.erase t

/-- The highlighted set after a sequence of interface calls. -/
def applyEnemyCalls (Highlighted : Finset AActor) (calls : List EnemyCall) : Finset AActor :=
  calls.foldl applyEnemyCall Highlighted

/-- The controller together with the highlight state of the level. -/
structure TraceState where
  Controller : AAuraPlayerController
  Highlighted : Finset AActor

/-- One frame: `PlayerTick` runs `CursorTrace` on the frame's hit result and
the issued calls act on the highlighted set. -/
def PlayerTick (s : TraceState) (CursorHit : FHitResult) : TraceState :=
  let r := CursorTrace s.Controller CursorHit
  { Controller := r.1, Highlighted := applyEnemyCalls s.Highlighted r.2 }

/-- The constructor body, `bReplicates = true`, on a controller `c0` whose other
members hold their configured values.  Modelled from the spec: the header with
the member declarations is not part of the source file; both actor references
start null. -/
def construct (c0 : AAuraPlayerController) : AAuraPlayerController :=
  { c0 with bReplicates := true, LastActor := none, ThisActor := none }

/-- The initial state: both references null, no actor highlighted. -/
def initialState (c0 : AAuraPlayerController) : TraceState :=
  { Controller := construct c0, Highlighted := ∅ }

/-- The state after a finite sequence of frames. -/
def runFrames (s : TraceState) (hits : List FHitResult) : TraceState :=
  hits.foldl PlayerTick s

/-- The interactable actor under the cursor in a frame, in the words of the
specification: the hit actor seen through the enemy interface, and none when
the trace has no blocking hit. -/
def interactableUnderCursor (CursorHit : FHitResult) : Option AActor :=
  if CursorHit.bBlockingHit then Cast CursorHit.Actor else none

/-! ## Movement input -/

/-- The rotator type `FRotator` over a scalar type `R`; the constructor takes
pitch, yaw and roll in this order. -/
structure FRotator (R : Type) where
  Pitch : R
  Yaw : R
  Roll : R
  deriving DecidableEq, Repr

/-- The 2D axis value `FVector2D` of an input action. -/
structure FVector2D (R : Type) where
  X : R
  Y : R
  deriving DecidableEq, Repr

/-- Axis selector `EAxis`. -/
inductive EAxis where
  | None
  | X
  | Y
  | Z
  deriving DecidableEq, Repr

/-- The engine's rotation arithmetic, taken as given: scalars `R`, matrices `M`
and vectors `V`, with `FRotationMatrix(Rot)` and `Matrix.GetUnitAxis(Axis)`. -/
structure RotationMath (R M V : Type) where
  FRotationMatrix : FRotator R → M
  GetUnitAxis : M → EAxis → V

/-- Calls made on the controlled pawn. -/
inductive PawnCall (R V : Type) where
  | AddMovementInput (Target : APawn) (WorldDirection : V) (ScaleValue : R)
  deriving DecidableEq, Repr

/-- `AAuraPlayerController::Move`.  `InputAxisVector` is
`InputActionValue.Get<FVector2D>()`, `ControlRotation` the result of
`GetControlRotation()` and `Pawn` the result of `GetPawn<APawn>()`.  Returns
the controller afterwards and the pawn calls issued, in order. -/
def Move {R M V : Type} [Zero R] (E : RotationMath R M V) (c : AAuraPlayerController)
    (ControlRotation : FRotator R) (Pawn : Option APawn) (InputAxisVector : FVector2D R) :
    AAuraPlayerController × List (PawnCall R V) :=
  let Rotation := ControlRotation
  let YawRotation : FRotator R := ⟨0, Rotation.Yaw, 0⟩
  let ForwardDirection := E.GetUnitAxis (E.FRotationMatrix YawRotation) EAxis.X
  let RightDirection := E.GetUnitAxis (E.FRotationMatrix YawRotation) EAxis.Y
  match Pawn with
  | some ControlledPawn =>
    (c, [PawnCall.AddMovementInput ControlledPawn ForwardDirection InputAxisVector.Y,
         PawnCall.AddMovementInput ControlledPawn RightDirection InputAxisVector.X])
  | none => (c, [])

/-! ## BeginPlay -/

/-- The fields of `FInputModeGameAndUI`. -/
structure FInputModeGameAndUI where
  WidgetToFocus : Option Nat
  MouseLockMode : EMouseLockMode
  bHideCursorDuringCapture : Bool
  deriving DecidableEq, Repr

/-- The input modes `SetInputMode` accepts. -/
inductive FInputModeDataBase where
  | GameOnly
  | UIOnly
  | GameAndUI (Data : FInputModeGameAndUI)
  deriving DecidableEq, Repr

/-- Engine calls made by `BeginPlay`. -/
inductive EngineCall where
  | Super_BeginPlay
  | AddMappingContext (Subsystem : UEnhancedInputLocalPlayerSubsystem)
      (MappingContext : UInputMappingContext) (Priority : Int)
  | SetInputMode (InData : FInputModeDataBase)
  deriving DecidableEq, Repr

/-- The two `check` assertions of `BeginPlay`. -/
inductive CheckFailure where
  | AuraContext
  | Subsystem
  deriving DecidableEq, Repr

/-- What a run of `BeginPlay` leaves behind: the controller, the engine calls
issued so far, and the assertion that stopped it, if any. -/
structure BeginPlayResult where
  Controller : AAuraPlayerController
  calls : List EngineCall
  failed : Option CheckFailure
  deriving DecidableEq, Repr

/-- `AAuraPlayerController::BeginPlay`.  `Subsystem` is the result of
`ULocalPlayer::GetSubsystem<UEnhancedInputLocalPlayerSubsystem>(GetLocalPlayer())`
and `InputModeDefault` the default-constructed `FInputModeGameAndUI`.  A failed
`check` stops the function at that line. -/
def BeginPlay (c : AAuraPlayerController)
    (Subsystem : Option UEnhancedInputLocalPlayerSubsystem)
    (InputModeDefault : FInputModeGameAndUI) : BeginPlayResult :=
  let calls0 := [EngineCall.Super_BeginPlay]
  match c.AuraContext with
  | none => { Controller := c, calls := calls0, failed := some CheckFailure.AuraContext }
  | some ctx =>
    match Subsystem with
    | none => { Controller := c, calls := calls0, failed := some CheckFailure.Subsystem }
    | some sub =>
      let calls1 := calls0 ++ [EngineCall.AddMappingContext sub ctx 0]
      let c1 := { c with bShowMouseCursor := true }
      let c2 := { c1 with DefaultMouseCursor := EMouseCursor.Default }
      let InputModeData := InputModeDefault
      let InputModeData := { InputModeData with MouseLockMode := EMouseLockMode.DoNotLock }
      let InputModeData := { InputModeData with bHideCursorDuringCapture := false }
      let calls2 := calls1 ++ [EngineCall.SetInputMode (FInputModeDataBase.GameAndUI InputModeData)]
      { Controller := c2, calls := calls2, failed := none }

/-- The mapping contexts added to subsystems by a sequence of engine calls,
with their priorities. -/
def addedMappingContexts (calls : List EngineCall) :
    List (UEnhancedInputLocalPlayerSubsystem × UInputMappingContext × Int) :=
  calls.filterMap fun call =>
    match call with
    | EngineCall.AddMappingContext sub ctx prio => some (sub, ctx, prio)
    | _ => none

/-- The input mode in effect after a sequence of engine calls: the argument of
the last `SetInputMode`, if there was one. -/
def inputModeAfter (calls : List EngineCall) : Option FInputModeDataBase :=
  calls.foldl (fun mode call =>
    match call with
    | EngineCall.SetInputMode d => some d
    | _ => mode) none

/-! ### Sample values -/

/-- A controller as configured before play. -/
def sampleController : AAuraPlayerController :=
  { bReplicates := false
    LastActor := none
    ThisActor := none
    AuraContext := some ⟨7⟩
    bShowMouseCursor := false
    DefaultMouseCursor := EMouseCursor.Crosshairs }

/-- Two enemies and a piece of scenery. -/
def goblin : AActor := ⟨1, true⟩
def shaman : AActor := ⟨2, true⟩
def crate : AActor := ⟨3, false⟩

def hitGoblin : FHitResult := ⟨true, some goblin⟩
def hitShaman : FHitResult := ⟨true, some shaman⟩
def hitCrate : FHitResult := ⟨true, some crate⟩
def hitNothing : FHitResult := ⟨false, none⟩

/-- Sine of an angle in degrees, exact at the quarter turns (0 elsewhere). -/
def quarterSin (deg : Int) : Int :=
  if deg % 360 = 90 then 1 else if deg % 360 = 270 then -1 else 0

/-- Cosine of an angle in degrees, exact at the quarter turns (0 elsewhere). -/
def quarterCos (deg : Int) : Int :=
  if deg % 360 = 0 then 1 else if deg % 360 = 180 then -1 else 0

/-- A sample of the engine's rotation arithmetic over integer degrees: the
matrix of a rotator is kept as the rotator, and its axes follow the engine's
formulas with the quarter-turn sine and cosine. -/
def quarterTurnMath : RotationMath Int (FRotator Int) (Int × Int × Int) where
  FRotationMatrix := fun Rot => Rot
  GetUnitAxis := fun m Axis =>
    let SP := quarterSin m.Pitch
    let CP := quarterCos m.Pitch
    let SY := quarterSin m.Yaw
    let CY := quarterCos m.Yaw
    let SR := quarterSin m.Roll
    let CR := quarterCos m.Roll
    match Axis with
    | EAxis.X => (CP * CY, CP * SY, SP)
    | EAxis.Y => (SR * SP * CY - CR * SY, SR * SP * SY + CR * CY, -(SR * CP))
    | EAxis.Z => (-(CR * SP * CY + SR * SY), CY * SR - CR * SP * SY, CR * CP)
    | EAxis.None => (0, 0, 0)

def samplePawn : APawn := ⟨11⟩
def sampleSubsystem : UEnhancedInputLocalPlayerSubsystem := ⟨5⟩
def sampleInputModeDefault : FInputModeGameAndUI := ⟨none, EMouseLockMode.LockAlways, true⟩

/-! ## Helper lemmas -/

/-- The highlight invariant: the highlighted set holds `ThisActor` and nothing
else. -/
def highlightInvariant (s : TraceState) : Prop :=
  s.Highlighted = s.Controller.ThisActor.toFinset

theorem highlightInvariant_initialState (c0 : AAuraPlayerController) :
    highlightInvariant (initialState c0) := by
  simp [highlightInvariant, initialState, construct]

theorem highlightInvariant_PlayerTick (s : TraceState) (h : FHitResult)
    (hs : highlightInvariant s) : highlightInvariant (PlayerTick s h) := by
  obtain ⟨c, H⟩ := s
  simp only [highlightInvariant] at hs
  subst hs
  rcases hb : h.bBlockingHit with _ | _
  · simp [highlightInvariant, PlayerTick, CursorTrace, hb, applyEnemyCalls]
  · rcases hl : c.ThisActor with _ | l <;> rcases ht : Cast h.Actor with _ | t
    · simp [highlightInvariant, PlayerTick, CursorTrace, hb, hl, ht, applyEnemyCalls,
        highlightTransition]
    · simp [highlightInvariant, PlayerTick, CursorTrace, hb, hl, ht, applyEnemyCalls,
        highlightTransition, applyEnemyCall]
    · simp [highlightInvariant, PlayerTick, CursorTrace, hb, hl, ht, applyEnemyCalls,
        highlightTransition, applyEnemyCall]
    · by_cases hlt : l = t
      · simp [highlightInvariant, PlayerTick, CursorTrace, hb, hl, ht, applyEnemyCalls,
          highlightTransition, hlt]
      · simp [highlightInvariant, PlayerTick, CursorTrace, hb, hl, ht, applyEnemyCalls,
          highlightTransition, applyEnemyCall, hlt]

theorem highlightInvariant_runFrames (s : TraceState) (hits : List FHitResult)
    (hs : highlightInvariant s) : highlightInvariant (runFrames s hits) := by
  induction hits generalizing s with
  | nil => exact hs
  | cons h rest ih => exact ih (PlayerTick s h) (highlightInvariant_PlayerTick s h hs)

/-! ## Cursor trace: claims -/

/-- C1: from the initial state (both references null, nothing highlighted),
after every finite sequence of frames with arbitrary hit results the set of
highlighted actors has at most one element, and an actor in it is its single
element and is `ThisActor`. -/
theorem at_most_one_highlighted (c0 : AAuraPlayerController) (hits : List FHitResult) :
    (runFrames (initialState c0) hits).Highlighted.card ≤ 1 ∧
    ∀ a, a ∈ (runFrames (initialState c0) hits).Highlighted →
      (runFrames (initialState c0) hits).Highlighted = {a} ∧
      (runFrames (initialState c0) hits).Controller.ThisActor = some a := by
  have hinv := highlightInvariant_runFrames (initialState c0) hits
    (highlightInvariant_initialState c0)
  simp only [highlightInvariant] at hinv
  rw [hinv]
  rcases (runFrames (initialState c0) hits).Controller.ThisActor with _ | t
  · simp
  · simp

/-- Witness for C1: hover a goblin, leave the geometry, hover a shaman, hover a
crate, hover the goblin again. -/
theorem at_most_one_highlighted_witness :
    (runFrames (initialState sampleController)
        [hitGoblin, hitNothing, hitShaman, hitCrate, hitGoblin]).Highlighted = {goblin} ∧
    (runFrames (initialState sampleController)
        [hitGoblin, hitNothing, hitShaman, hitCrate, hitGoblin]).Controller.ThisActor
      = some goblin :=
  (at_most_one_highlighted sampleController
    [hitGoblin, hitNothing, hitShaman, hitCrate, hitGoblin]).2 goblin (by decide)

/-- C2: the five-case transition table.  For a blocking trace, with `L` the
value of `ThisActor` before the call and `T` the hit actor cast to the enemy
interface, the calls issued are exactly: (A) both null: none; (B) `L` null, `T`
valid: `HighlightActor` on `T`; (C) `L` valid, `T` null: `UnHighlightActor` on
`L`; (D) both valid and different: `UnHighlightActor` on `L` then
`HighlightActor` on `T`; (E) both valid and equal: none. -/
theorem CursorTrace_transition_table (c : AAuraPlayerController) (h : FHitResult)
    (hb : h.bBlockingHit = true) :
    (c.ThisActor = none → Cast h.Actor = none → (CursorTrace c h).2 = []) ∧
    (∀ t, c.ThisActor = none → Cast h.Actor = some t →
      (CursorTrace c h).2 = [EnemyCall.HighlightActor t]) ∧
    (∀ l, c.ThisActor = some l → Cast h.Actor = none →
      (CursorTrace c h).2 = [EnemyCall.UnHighlightActor l]) ∧
    (∀ l t, c.ThisActor = some l → Cast h.Actor = some t → l ≠ t →
      (CursorTrace c h).2 = [EnemyCall.UnHighlightActor l, EnemyCall.HighlightActor t]) ∧
    (∀ l t, c.ThisActor = some l → Cast h.Actor = some t → l = t →
      (CursorTrace c h).2 = []) := by
  refine ⟨?_, ?_, ?_, ?_, ?_⟩
  · intro hl ht
    simp [CursorTrace, hb, hl, ht, highlightTransition]
  · intro t hl ht
    simp [CursorTrace, hb, hl, ht, highlightTransition]
  · intro l hl ht
    simp [CursorTrace, hb, hl, ht, highlightTransition]
  · intro l t hl ht hne
    simp [CursorTrace, hb, hl, ht, highlightTransition, hne]
  · intro l t hl ht heq
    simp [CursorTrace, hb, hl, ht, highlightTransition, heq]

/-- Witness for C2 (case D): the goblin was hovered, the cursor moves onto the
shaman. -/
theorem CursorTrace_transition_table_witness :
    (CursorTrace { sampleController with ThisActor := some goblin } hitShaman).2
      = [EnemyCall.UnHighlightActor goblin, EnemyCall.HighlightActor shaman] :=
  (CursorTrace_transition_table { sampleController with ThisActor := some goblin }
    hitShaman rfl).2.2.2.1 goblin shaman rfl rfl (by decide)

/-- C3 as stated fails: after hovering the goblin, a frame whose trace has no
blocking hit finds no interactable actor under the cursor, yet the goblin is
still highlighted after the call. -/
theorem highlight_follows_cursor_fails :
    interactableUnderCursor hitNothing = none ∧
    goblin ∈ (PlayerTick (runFrames (initialState sampleController) [hitGoblin])
      hitNothing).Highlighted ∧
    ¬ (∀ a, a ∈ (PlayerTick (runFrames (initialState sampleController) [hitGoblin])
        hitNothing).Highlighted ↔ interactableUnderCursor hitNothing = some a) := by
  refine ⟨by decide, by decide, ?_⟩
  intro hall
  have hg := (hall goblin).1 (by decide)
  exact absurd hg (by decide)

/-- C3 amended: in every state reachable from the initial state, after a frame
whose trace is a blocking hit an actor is highlighted if and only if it is the
enemy-interface actor under the cursor in that frame (so no actor is
highlighted when the hit actor is not an enemy or is null); after a frame whose
trace has no blocking hit the highlighted set is the one from before. -/
theorem highlight_follows_blocking_hit (c0 : AAuraPlayerController)
    (hits : List FHitResult) (h : FHitResult) :
    (h.bBlockingHit = true →
      (∀ a, a ∈ (PlayerTick (runFrames (initialState c0) hits) h).Highlighted ↔
        interactableUnderCursor h = some a) ∧
      (interactableUnderCursor h = none →
        (PlayerTick (runFrames (initialState c0) hits) h).Highlighted = ∅)) ∧
    (h.bBlockingHit = false →
      (PlayerTick (runFrames (initialState c0) hits) h).Highlighted =
        (runFrames (initialState c0) hits).Highlighted) := by
  have hinv := highlightInvariant_PlayerTick _ h
    (highlightInvariant_runFrames (initialState c0) hits (highlightInvariant_initialState c0))
  simp only [highlightInvariant] at hinv
  constructor
  · intro hb
    have hT : (PlayerTick (runFrames (initialState c0) hits) h).Controller.ThisActor
        = interactableUnderCursor h := by
      simp [PlayerTick, CursorTrace, hb, interactableUnderCursor]
    rw [hinv, hT]
    constructor
    · intro a
      rcases interactableUnderCursor h with _ | t
      · simp
      · simp [eq_comm]
    · intro hnone
      simp [hnone]
  · intro hb
    simp [PlayerTick, CursorTrace, hb, applyEnemyCalls]

/-- Witness for C3 amended: from the goblin, a blocking hit on the crate clears
the highlight; a trace without a blocking hit keeps it. -/
theorem highlight_follows_blocking_hit_witness :
    (PlayerTick (runFrames (initialState sampleController) [hitGoblin]) hitCrate).Highlighted
      = ∅ ∧
    (PlayerTick (runFrames (initialState sampleController) [hitGoblin]) hitNothing).Highlighted
      = (runFrames (initialState sampleController) [hitGoblin]).Highlighted :=
  ⟨((highlight_follows_blocking_hit sampleController [hitGoblin] hitCrate).1 rfl).2
      (by decide),
   (highlight_follows_blocking_hit sampleController [hitGoblin] hitNothing).2 rfl⟩

/-- C4: for a blocking trace, afterwards `LastActor` is the old `ThisActor`,
and `ThisActor` is the hit actor when it implements the enemy interface and
null otherwise, also when the hit has no actor; neither new value depends on
the old `LastActor`. -/
theorem CursorTrace_reference_update (c : AAuraPlayerController) (h : FHitResult)
    (hb : h.bBlockingHit = true) :
    (CursorTrace c h).1.LastActor = c.ThisActor ∧
    (∀ a, h.Actor = some a → a.implementsEnemyInterface = true →
      (CursorTrace c h).1.ThisActor = some a) ∧
    (∀ a, h.Actor = some a → a.implementsEnemyInterface = false →
      (CursorTrace c h).1.ThisActor = none) ∧
    (h.Actor = none → (CursorTrace c h).1.ThisActor = none) ∧
    (∀ L, (CursorTrace { c with LastActor := L } h).1.LastActor = (CursorTrace c h).1.LastActor ∧
      (CursorTrace { c with LastActor := L } h).1.ThisActor = (CursorTrace c h).1.ThisActor) := by
  refine ⟨?_, ?_, ?_, ?_, ?_⟩
  · simp [CursorTrace, hb]
  · intro a ha he
    simp [CursorTrace, hb, ha, Cast, he]
  · intro a ha he
    simp [CursorTrace, hb, ha, Cast, he]
  · intro ha
    simp [CursorTrace, hb, ha, Cast]
  · intro L
    simp [CursorTrace, hb]

/-- Witness for C4: the goblin was hovered (and the crate's null cast before
it), the cursor moves onto the shaman. -/
theorem CursorTrace_reference_update_witness :
    (CursorTrace { sampleController with LastActor := some shaman, ThisActor := some goblin }
        hitShaman).1.LastActor = some goblin ∧
    (CursorTrace { sampleController with LastActor := some shaman, ThisActor := some goblin }
        hitShaman).1.ThisActor = some shaman ∧
    (CursorTrace { sampleController with LastActor := some shaman, ThisActor := some goblin }
        hitCrate).1.ThisActor = none :=
  ⟨(CursorTrace_reference_update
      { sampleController with LastActor := some shaman, ThisActor := some goblin }
      hitShaman rfl).1,
   (CursorTrace_reference_update
      { sampleController with LastActor := some shaman, ThisActor := some goblin }
      hitShaman rfl).2.1 shaman rfl rfl,
   (CursorTrace_reference_update
      { sampleController with LastActor := some shaman, ThisActor := some goblin }
      hitCrate rfl).2.2.1 crate rfl rfl⟩

/-- C8: a trace without a blocking hit leaves the controller, and so
`LastActor` and `ThisActor`, unchanged and issues no interface call; the set of
highlighted actors is the same before and after. -/
theorem CursorTrace_no_blocking_hit (s : TraceState) (h : FHitResult)
    (hb : h.bBlockingHit = false) :
    CursorTrace s.Controller h = (s.Controller, []) ∧
    (PlayerTick s h).Controller = s.Controller ∧
    (PlayerTick s h).Highlighted = s.Highlighted := by
  simp [PlayerTick, CursorTrace, hb, applyEnemyCalls]

/-- Witness for C8: the goblin is highlighted and the trace has no blocking
hit. -/
theorem CursorTrace_no_blocking_hit_witness :
    CursorTrace (runFrames (initialState sampleController) [hitGoblin]).Controller hitNothing
      = ((runFrames (initialState sampleController) [hitGoblin]).Controller, []) ∧
    (PlayerTick (runFrames (initialState sampleController) [hitGoblin]) hitNothing).Controller
      = (runFrames (initialState sampleController) [hitGoblin]).Controller ∧
    (PlayerTick (runFrames (initialState sampleController) [hitGoblin]) hitNothing).Highlighted
      = (runFrames (initialState sampleController) [hitGoblin]).Highlighted :=
  CursorTrace_no_blocking_hit (runFrames (initialState sampleController) [hitGoblin])
    hitNothing rfl

/-- C9: running the trace twice in a row with the same hit result issues no
interface call during the second run, the highlighted set and `ThisActor`
after the second run equal those after the first, and after the second run
with a blocking hit `LastActor = ThisActor`. -/
theorem CursorTrace_repeat (s : TraceState) (h : FHitResult) :
    (CursorTrace (PlayerTick s h).Controller h).2 = [] ∧
    (PlayerTick (PlayerTick s h) h).Highlighted = (PlayerTick s h).Highlighted ∧
    (PlayerTick (PlayerTick s h) h).Controller.ThisActor = (PlayerTick s h).Controller.ThisActor ∧
    (h.bBlockingHit = true →
      (PlayerTick (PlayerTick s h) h).Controller.LastActor =
        (PlayerTick (PlayerTick s h) h).Controller.ThisActor) := by
  rcases hb : h.bBlockingHit with _ | _
  · simp [PlayerTick, CursorTrace, hb, applyEnemyCalls]
  · rcases ht : Cast h.Actor with _ | t
    · simp [PlayerTick, CursorTrace, hb, ht, applyEnemyCalls, highlightTransition]
    · simp [PlayerTick, CursorTrace, hb, ht, applyEnemyCalls, highlightTransition]

/-- Witness for C9: the goblin was hovered and the shaman is hit twice. -/
theorem CursorTrace_repeat_witness :
    (PlayerTick (PlayerTick (runFrames (initialState sampleController) [hitGoblin])
        hitShaman) hitShaman).Controller.LastActor =
    (PlayerTick (PlayerTick (runFrames (initialState sampleController) [hitGoblin])
        hitShaman) hitShaman).Controller.ThisActor :=
  (CursorTrace_repeat (runFrames (initialState sampleController) [hitGoblin])
    hitShaman).2.2.2 rfl

/-! ## Movement input: claims -/

/-- C5: with `Forward` and `Right` the unit X and Y axes of the rotation matrix
built from (pitch 0, the control yaw, roll 0), `Move` on a controller with a
pawn issues exactly two `AddMovementInput` calls on it, first
(`Forward`, scale `y`) and then (`Right`, scale `x`); without a pawn it issues
no call; in both cases the controller is left as it was. -/
theorem Move_maps_input {R M V : Type} [Zero R] (E : RotationMath R M V)
    (c : AAuraPlayerController) (ControlRotation : FRotator R) (Pawn : Option APawn)
    (InputAxisVector : FVector2D R) :
    (∀ p, Pawn = some p →
      Move E c ControlRotation Pawn InputAxisVector =
        (c, [PawnCall.AddMovementInput p
               (E.GetUnitAxis (E.FRotationMatrix ⟨0, ControlRotation.Yaw, 0⟩) EAxis.X)
               InputAxisVector.Y,
             PawnCall.AddMovementInput p
               (E.GetUnitAxis (E.FRotationMatrix ⟨0, ControlRotation.Yaw, 0⟩) EAxis.Y)
               InputAxisVector.X])) ∧
    (Pawn = none → Move E c ControlRotation Pawn InputAxisVector = (c, [])) := by
  constructor
  · intro p hp
    subst hp
    rfl
  · intro hp
    subst hp
    rfl

/-- Witness for C5: control yaw of a quarter turn, input (3, 4), in the
quarter-turn sample of the rotation arithmetic; and the same input without a
pawn. -/
theorem Move_maps_input_witness :
    Move quarterTurnMath sampleController ⟨0, 90, 0⟩ (some samplePawn) ⟨3, 4⟩ =
      (sampleController,
        [PawnCall.AddMovementInput samplePawn
           (quarterTurnMath.GetUnitAxis (quarterTurnMath.FRotationMatrix ⟨0, 90, 0⟩) EAxis.X) 4,
         PawnCall.AddMovementInput samplePawn
           (quarterTurnMath.GetUnitAxis (quarterTurnMath.FRotationMatrix ⟨0, 90, 0⟩) EAxis.Y) 3]) ∧
    Move quarterTurnMath sampleController ⟨0, 90, 0⟩ none ⟨3, 4⟩ = (sampleController, []) :=
  ⟨(Move_maps_input quarterTurnMath sampleController ⟨0, 90, 0⟩ (some samplePawn) ⟨3, 4⟩).1
      samplePawn rfl,
   (Move_maps_input quarterTurnMath sampleController ⟨0, 90, 0⟩ none ⟨3, 4⟩).2 rfl⟩

/-- C7: for every input axis vector and every two control rotations with the
same yaw, whatever their pitch and roll, `Move` issues the same
`AddMovementInput` calls, with the same directions and scales. -/
theorem Move_depends_on_yaw_only {R M V : Type} [Zero R] (E : RotationMath R M V)
    (c : AAuraPlayerController) (Rotation1 Rotation2 : FRotator R) (Pawn : Option APawn)
    (InputAxisVector : FVector2D R) (hyaw : Rotation1.Yaw = Rotation2.Yaw) :
    Move E c Rotation1 Pawn InputAxisVector = Move E c Rotation2 Pawn InputAxisVector := by
  simp only [Move, hyaw]

/-- Witness for C7: two control rotations with yaw 90, one level and one
pitched and rolled; the sample rotation arithmetic does tell the two rotators
apart. -/
theorem Move_depends_on_yaw_only_witness :
    quarterTurnMath.GetUnitAxis (quarterTurnMath.FRotationMatrix ⟨0, 90, 0⟩) EAxis.X ≠
      quarterTurnMath.GetUnitAxis (quarterTurnMath.FRotationMatrix ⟨90, 90, 180⟩) EAxis.X ∧
    Move quarterTurnMath sampleController ⟨0, 90, 0⟩ (some samplePawn) ⟨3, 4⟩ =
      Move quarterTurnMath sampleController ⟨90, 90, 180⟩ (some samplePawn) ⟨3, 4⟩ :=
  ⟨by decide,
   Move_depends_on_yaw_only quarterTurnMath sampleController ⟨0, 90, 0⟩ ⟨90, 90, 180⟩
    (some samplePawn) ⟨3, 4⟩ rfl⟩

/-! ## BeginPlay: claims -/

/-- C6: `BeginPlay` completes without an assertion failure if and only if
`AuraContext` and the subsystem are both non-null.  With a null `AuraContext`
it stops at the first assertion: no mapping context has been added, no input
mode set, and the controller (with its cursor settings) is as before.  When it
completes, `AuraContext` has been added to the subsystem with priority 0,
`bShowMouseCursor` is true, `DefaultMouseCursor` is `Default`, and the input
mode is game-and-UI with lock mode `DoNotLock` and hide-cursor-during-capture
false. -/
theorem BeginPlay_assertions (c : AAuraPlayerController)
    (Subsystem : Option UEnhancedInputLocalPlayerSubsystem)
    (InputModeDefault : FInputModeGameAndUI) :
    ((BeginPlay c Subsystem InputModeDefault).failed = none ↔
      (c.AuraContext ≠ none ∧ Subsystem ≠ none)) ∧
    (c.AuraContext = none →
      (BeginPlay c Subsystem InputModeDefault).failed = some CheckFailure.AuraContext ∧
      addedMappingContexts (BeginPlay c Subsystem InputModeDefault).calls = [] ∧
      inputModeAfter (BeginPlay c Subsystem InputModeDefault).calls = none ∧
      (BeginPlay c Subsystem InputModeDefault).Controller = c) ∧
    ((BeginPlay c Subsystem InputModeDefault).failed = none →
      ∃ ctx sub, c.AuraContext = some ctx ∧ Subsystem = some sub ∧
        addedMappingContexts (BeginPlay c Subsystem InputModeDefault).calls = [(sub, ctx, 0)] ∧
        (BeginPlay c Subsystem InputModeDefault).Controller.bShowMouseCursor = true ∧
        (BeginPlay c Subsystem InputModeDefault).Controller.DefaultMouseCursor
          = EMouseCursor.Default ∧
        inputModeAfter (BeginPlay c Subsystem InputModeDefault).calls =
          some (FInputModeDataBase.GameAndUI
            { WidgetToFocus := InputModeDefault.WidgetToFocus
              MouseLockMode := EMouseLockMode.DoNotLock
              bHideCursorDuringCapture := false })) := by
  rcases hc : c.AuraContext with _ | ctx
  · simp [BeginPlay, hc, addedMappingContexts, inputModeAfter]
  · rcases Subsystem with _ | sub
    · simp [BeginPlay, hc]
    · simp [BeginPlay, hc, addedMappingContexts, inputModeAfter]

/-- Witness for C6: a configured controller with a subsystem completes; the
same controller without `AuraContext` stops at the first assertion. -/
theorem BeginPlay_assertions_witness :
    (∃ ctx sub, sampleController.AuraContext = some ctx ∧ some sampleSubsystem = some sub ∧
        addedMappingContexts
          (BeginPlay sampleController (some sampleSubsystem) sampleInputModeDefault).calls
          = [(sub, ctx, 0)] ∧
        (BeginPlay sampleController (some sampleSubsystem)
          sampleInputModeDefault).Controller.bShowMouseCursor = true ∧
        (BeginPlay sampleController (some sampleSubsystem)
          sampleInputModeDefault).Controller.DefaultMouseCursor = EMouseCursor.Default ∧
        inputModeAfter
          (BeginPlay sampleController (some sampleSubsystem) sampleInputModeDefault).calls =
          some (FInputModeDataBase.GameAndUI
            { WidgetToFocus := sampleInputModeDefault.WidgetToFocus
              MouseLockMode := EMouseLockMode.DoNotLock
              bHideCursorDuringCapture := false })) ∧
    ((BeginPlay { sampleController with AuraContext := none } (some sampleSubsystem)
          sampleInputModeDefault).failed = some CheckFailure.AuraContext ∧
      addedMappingContexts (BeginPlay { sampleController with AuraContext := none }
          (some sampleSubsystem) sampleInputModeDefault).calls = [] ∧
      inputModeAfter (BeginPlay { sampleController with AuraContext := none }
          (some sampleSubsystem) sampleInputModeDefault).calls = none ∧
      (BeginPlay { sampleController with AuraContext := none } (some sampleSubsystem)
          sampleInputModeDefault).Controller = { sampleController with AuraContext := none }) :=
  ⟨(BeginPlay_assertions sampleController (some sampleSubsystem) sampleInputModeDefault).2.2
      (by decide),
   (BeginPlay_assertions { sampleController with AuraContext := none } (some sampleSubsystem)
      sampleInputModeDefault).2.1 rfl⟩

end Aura
